import Mathlib

/- Verification of the reconciliation core of the quality_check repository.

   The repository holds three Python variants of the same pipeline:
   * src/quality_check_gui.py        - class TableFiller (the core engine)
   * src/scripts/auto_fill_enhanced.py - the same TableFiller logic plus an
     accumulated textual report
   * src/scripts/auto_fill_table.py  - an older stand-alone script variant
     whose comparator, normalizer, note format and iteration order differ.

   The embedding is shallow: a pandas cell value becomes the inductive type
   Value, a dataframe becomes a column list plus association-list rows, and
   each Python function is translated one-to-one.  Namespace TableFiller
   holds the GUI/enhanced core, namespace autoFill the stand-alone script,
   namespace enhanced the report builder of auto_fill_enhanced.py. -/

/-- A pandas cell value as the scripts see it.  `absent` is float NaN,
`noneV` is Python None (both satisfy pd.isna); `inf` keeps float parsing
total; `boolean` covers the comparison-flag cells the engine writes. -/
inductive Value where
  | absent
  | noneV
  | num (q : ℚ)
  | inf (pos : Bool)
  | text (s : String)
  | boolean (b : Bool)
  deriving DecidableEq, Repr

/-- pd.isna on a scalar cell: true exactly for NaN and None. -/
def isna : Value → Bool
  | .absent => true
  | .noneV => true
  | _ => false

/-- Lowercase a string (Python str.lower(); list-based so that the kernel
can evaluate it, unlike String.toLower). -/
def lowerStr (s : String) : String := String.mk (s.toList.map Char.toLower)

/-- Strip surrounding whitespace from a character list. -/
def stripList (l : List Char) : List Char :=
  ((l.dropWhile Char.isWhitespace).reverse.dropWhile Char.isWhitespace).reverse

/-- Strip surrounding whitespace (Python str.strip(); list-based so that
the kernel can evaluate it, unlike String.trim). -/
def stripStr (s : String) : String := String.mk (stripList s.toList)

/-- Split a character list at every separator matching p. -/
def splitOnChar (p : Char → Bool) : List Char → List (List Char)
  | [] => [[]]
  | c :: rest =>
    let r := splitOnChar p rest
    if p c then [] :: r
    else match r with
      | [] => [[c]]
      | h :: t => (c :: h) :: t

/-- Numeric value of a digit string (most significant first). -/
def digitsVal (l : List Char) : Nat :=
  l.foldl (fun a c => a * 10 + (c.toNat - 48)) 0

/-- Nonempty and all decimal digits. -/
def isDigits (l : List Char) : Bool :=
  !l.isEmpty && l.all Char.isDigit

/-- Mantissa of a Python float literal: digits with at most one decimal
point and at least one digit overall ("7", "1.", ".5" all parse). -/
def parseMantissa (m : List Char) : Option ℚ :=
  match splitOnChar (fun c => c == '.') m with
  | [i] => if isDigits i then some (digitsVal i : ℚ) else none
  | [i, f] =>
    if i.all Char.isDigit && f.all Char.isDigit && !(i.isEmpty && f.isEmpty) then
      some ((digitsVal i : ℚ) + (digitsVal f : ℚ) / ((10 : ℚ) ^ f.length))
    else none
  | _ => none

/-- Split a leading sign off a character list; the Bool is "negative". -/
def stripSignL : List Char → Bool × List Char
  | '-' :: rest => (true, rest)
  | '+' :: rest => (false, rest)
  | l => (false, l)

/-- Exponent part of a Python float literal: optional sign, then digits. -/
def parseExp (e : List Char) : Option ℤ :=
  let p := stripSignL e
  if isDigits p.2 then
    some (if p.1 then -(digitsVal p.2 : ℤ) else (digitsVal p.2 : ℤ))
  else none

/-- Python float(str): strip surrounding whitespace, take an optional sign,
then accept nan / inf / infinity (case-insensitive) or a decimal mantissa
with an optional e/E exponent.  CPython extras (underscore separators,
non-ASCII digits) are not modelled; no claim touches them. -/
def pyFloatOfString (s : String) : Option Value :=
  let t := stripList s.toList
  let p := stripSignL t
  let low := p.2.map Char.toLower
  if low = "nan".toList then some .absent
  else if low = "inf".toList ∨ low = "infinity".toList then some (.inf (!p.1))
  else match splitOnChar (fun c => c == 'e') low with
    | [m] => (parseMantissa m).map (fun q => .num (if p.1 then -q else q))
    | [m, e] => do
      let qm ← parseMantissa m
      let k ← parseExp e
      some (.num ((if p.1 then -qm else qm) * (10 : ℚ) ^ k))
    | _ => none

/-- Python float(x) on a cell value; none models a raised exception
(caught by the bare except in both clean_numeric_field variants). -/
def pyFloat : Value → Option Value
  | .num q => some (.num q)
  | .inf b => some (.inf b)
  | .absent => some .absent
  | .noneV => none
  | .boolean b => some (.num (if b then 1 else 0))
  | .text s => pyFloatOfString s

/-- Least k with den dividing 10^k, searched up to 40. -/
def decExp (d : Nat) : Option Nat :=
  (List.range 41).find? (fun k => 10 ^ k % d == 0)

/-- Left-pad a digit string with zeros to length n. -/
def padZeros (s : String) (n : Nat) : String :=
  if n ≤ s.length then s else String.mk (List.replicate (n - s.length) '0') ++ s

/-- Digits of n with a decimal point inserted before the last k digits. -/
def pointed (n k : Nat) : String :=
  let l := (padZeros (toString n) (k + 1)).toList
  String.mk (l.take (l.length - k)) ++ "." ++ String.mk (l.drop (l.length - k))

/-- Python str of a float, for the values these scripts produce: an
integral float prints with a trailing ".0" and a decimal fraction prints
exactly (float parsing, the only numeric source here, yields denominators
dividing a power of ten).  Other denominators fall back to a fraction
spelling that no claim exercises. -/
def ratRepr (q : ℚ) : String :=
  let sgn := if q.num < 0 then "-" else ""
  if q.den = 1 then sgn ++ toString q.num.natAbs ++ ".0"
  else match decExp q.den with
    | some k => sgn ++ pointed (q.num.natAbs * (10 ^ k / q.den)) k
    | none => sgn ++ toString q.num.natAbs ++ "/" ++ toString q.den

/-- Python str of a cell value. -/
def pyStr : Value → String
  | .absent => "nan"
  | .noneV => "None"
  | .num q => ratRepr q
  | .inf b => if b then "inf" else "-inf"
  | .text s => s
  | .boolean b => if b then "True" else "False"

/-- Python == between two cell values (NaN is equal to nothing,
True == 1.0 holds, values of unrelated types compare unequal). -/
def pyEq : Value → Value → Bool
  | .num a, .num b => a == b
  | .text a, .text b => a == b
  | .boolean a, .boolean b => a == b
  | .boolean a, .num b => (if a then (1 : ℚ) else 0) == b
  | .num a, .boolean b => a == (if b then (1 : ℚ) else 0)
  | .inf a, .inf b => a == b
  | .noneV, .noneV => true
  | _, _ => false

/-- Python == between a cell value and a string literal. -/
def pyEqStr : Value → String → Bool
  | .text t, s => t == s
  | _, _ => false

/-- Decidable equality of Except results, for evaluating the fallible
engine functions on concrete inputs. -/
instance {e a : Type} [DecidableEq e] [DecidableEq a] : DecidableEq (Except e a) := fun x y =>
  match x, y with
  | .ok u, .ok v =>
    if h : u = v then isTrue (by rw [h]) else isFalse (by intro hc; cases hc; exact h rfl)
  | .error u, .error v =>
    if h : u = v then isTrue (by rw [h]) else isFalse (by intro hc; cases hc; exact h rfl)
  | .ok _, .error _ => isFalse (by intro hc; cases hc)
  | .error _, .ok _ => isFalse (by intro hc; cases hc)

namespace TableFiller

/-- quality_check_gui.py lines 33-40 (identical in auto_fill_enhanced.py
lines 31-38): clean_numeric_field.  Total, so it never raises. -/
def clean_numeric_field (value : Value) : Value :=
  if isna value || pyEqStr value "<Null>" || pyEqStr value "nan" || pyEqStr value "" then
    .absent
  else match pyFloat value with
    | some v => v
    | none => value

/-- quality_check_gui.py lines 42-53 (identical in auto_fill_enhanced.py
lines 40-51): compare_values.  str().strip().lower() becomes
pyStr/trim/toLower.  Total, so it never raises. -/
def compare_values (val1 val2 : Value) : Bool :=
  if isna val1 && isna val2 then true
  else if isna val1 || isna val2 then false
  else (lowerStr (stripStr (pyStr val1)) == lowerStr (stripStr (pyStr val2)))

end TableFiller

namespace autoFill

/-- auto_fill_table.py lines 14-21: clean_numeric_field.  Unlike the GUI
variant there is no check for the empty string. -/
def clean_numeric_field (value : Value) : Value :=
  if isna value || pyEqStr value "<Null>" || pyEqStr value "nan" then
    .absent
  else match pyFloat value with
    | some v => v
    | none => value

/-- auto_fill_table.py lines 23-32: compare_values.  Unlike the GUI
variant the stripped strings are compared without lower(). -/
def compare_values (val1 val2 : Value) : Bool :=
  if isna val1 && isna val2 then true
  else if isna val1 || isna val2 then false
  else (stripStr (pyStr val1) == stripStr (pyStr val2))

end autoFill

/-- Modelled from the spec and claim C1 verbatim: both absent gives true,
exactly one absent gives false, otherwise the case-insensitive
whitespace-trimmed string representations are compared. -/
def specEqual (a b : Value) : Bool :=
  if isna a && isna b then true
  else if isna a != isna b then false
  else (lowerStr (stripStr (pyStr a)) == lowerStr (stripStr (pyStr b)))

/-- The case-sensitive variant of specEqual actually implemented by
auto_fill_table.py (the nearby statement for the amended claim C1). -/
def specEqualCS (a b : Value) : Bool :=
  if isna a && isna b then true
  else if isna a != isna b then false
  else (stripStr (pyStr a) == stripStr (pyStr b))

/-- Modelled from the spec and claim C2 verbatim: absent when the raw
value is null, the empty string, the literal "nan" or the placeholder
"<Null>"; otherwise the parsed float on success and the original value
unchanged on parse failure. -/
def specNormalizeNumeric (v : Value) : Value :=
  if isna v then .absent
  else if pyEqStr v "" then .absent
  else if pyEqStr v "nan" then .absent
  else if pyEqStr v "<Null>" then .absent
  else match pyFloat v with
    | some w => w
    | none => v

/-- Helper: Bool-valued equality of two strings is symmetric. -/
theorem string_beq_symm (x y : String) : (x == y) = (y == x) := by
  by_cases h : x = y
  · subst h; rfl
  · have h1 : (x == y) = false := beq_eq_false_iff_ne.mpr h
    have h2 : (y == x) = false := beq_eq_false_iff_ne.mpr (Ne.symm h)
    rw [h1, h2]

/-- C1 (amended): the GUI/enhanced comparator TableFiller.compare_values
realises the claimed null-aware, case-insensitive, whitespace-trimmed
equality for every pair of values; the auto_fill_table comparator realises
the same specification except that the comparison is case-sensitive.
Both are total functions, so neither raises. -/
theorem c1_comparator_amended :
    (∀ a b, TableFiller.compare_values a b = specEqual a b) ∧
    (∀ a b, autoFill.compare_values a b = specEqualCS a b) := by
  constructor
  · intro a b
    cases ha : isna a <;> cases hb : isna b <;>
      simp [TableFiller.compare_values, specEqual, ha, hb]
  · intro a b
    cases ha : isna a <;> cases hb : isna b <;>
      simp [autoFill.compare_values, specEqualCS, ha, hb]

/-- C1 (counterexample): the claim as stated is false for the cited
auto_fill_table.py comparator: on the pair ("A", "a") the case-insensitive
trimmed representations are identical, so the claim requires true, but
compare_values returns false. -/
theorem c1_comparator_counterexample :
    autoFill.compare_values (Value.text "A") (Value.text "a") = false ∧
    specEqual (Value.text "A") (Value.text "a") = true := by
  constructor <;> decide

/-- C2 (amended): the GUI/enhanced clean_numeric_field agrees with the
claimed normalizer on every input; the auto_fill_table variant lacks the
empty-string check, so the empty string falls through to the failed float
parse and is returned unchanged, and on every other input it agrees with
the claimed normalizer.  Both are total, so neither throws. -/
theorem c2_normalize_amended :
    (∀ v, TableFiller.clean_numeric_field v = specNormalizeNumeric v) ∧
    (∀ v, autoFill.clean_numeric_field v =
      if v = Value.text "" then Value.text "" else specNormalizeNumeric v) := by
  constructor
  · intro v
    cases hv : isna v <;>
      cases h1 : pyEqStr v "<Null>" <;>
        cases h2 : pyEqStr v "nan" <;>
          cases h3 : pyEqStr v "" <;>
            simp [TableFiller.clean_numeric_field, specNormalizeNumeric, hv, h1, h2, h3]
  · intro v
    by_cases hv : v = Value.text ""
    · subst hv; decide
    · have h3 : pyEqStr v "" = false := by
        cases v <;> simp_all [pyEqStr]
      cases hv2 : isna v <;>
        cases h1 : pyEqStr v "<Null>" <;>
          cases h2 : pyEqStr v "nan" <;>
            simp [autoFill.clean_numeric_field, specNormalizeNumeric, hv, hv2, h1, h2, h3]

/-- C2 (counterexample): the claim as stated is false for the cited
auto_fill_table.py normalizer: on the empty string the claim requires
absent, but clean_numeric_field returns the empty string unchanged. -/
theorem c2_normalize_counterexample :
    autoFill.clean_numeric_field (Value.text "") = Value.text "" ∧
    specNormalizeNumeric (Value.text "") = Value.absent := by
  constructor <;> decide

/-- C9: both comparator variants are symmetric in their two arguments. -/
theorem c9_comparator_symmetric :
    (∀ a b, TableFiller.compare_values a b = TableFiller.compare_values b a) ∧
    (∀ a b, autoFill.compare_values a b = autoFill.compare_values b a) := by
  constructor
  · intro a b
    cases ha : isna a <;> cases hb : isna b <;>
      simp [TableFiller.compare_values, ha, hb, string_beq_symm]
  · intro a b
    cases ha : isna a <;> cases hb : isna b <;>
      simp [autoFill.compare_values, ha, hb, string_beq_symm]

/-- C10: both comparator variants are reflexive, and in particular two
absent (NaN) values compare equal, where float NaN equality would be
false. -/
theorem c10_comparator_reflexive :
    (∀ v, TableFiller.compare_values v v = true) ∧
    (∀ v, autoFill.compare_values v v = true) ∧
    TableFiller.compare_values Value.absent Value.absent = true ∧
    autoFill.compare_values Value.absent Value.absent = true := by
  refine ⟨fun v => ?_, fun v => ?_, rfl, rfl⟩
  · cases hv : isna v <;> simp [TableFiller.compare_values, hv]
  · cases hv : isna v <;> simp [autoFill.compare_values, hv]

/- Ordering of cell values, used by sorted() in the GUI engine.  The
comparison is by constructor rank, then code-point string order, then
numeric payload; restricted to text keys this is exactly Python string
order (Python compares code points).  Python would raise on a mixed-type
key set, which the embedding instead orders by rank. -/

def listCharLe : List Char → List Char → Bool
  | [], _ => true
  | _ :: _, [] => false
  | a :: as, b :: bs =>
    if a.toNat < b.toNat then true
    else if b.toNat < a.toNat then false
    else listCharLe as bs

theorem listCharLe_total : ∀ s t, listCharLe s t = true ∨ listCharLe t s = true
  | [], _ => Or.inl rfl
  | _ :: _, [] => Or.inr rfl
  | a :: as, b :: bs => by
    by_cases hab : a.toNat < b.toNat
    · left; simp [listCharLe, hab]
    · by_cases hba : b.toNat < a.toNat
      · right; simp [listCharLe, hba]
      · rcases listCharLe_total as bs with h | h
        · left; simp [listCharLe, hab, hba, h]
        · right; simp [listCharLe, hba, hab, h]

theorem listCharLe_trans :
    ∀ s t u, listCharLe s t = true → listCharLe t u = true → listCharLe s u = true
  | [], _, _, _, _ => rfl
  | _ :: _, [], _, h, _ => by simp [listCharLe] at h
  | _ :: _, _ :: _, [], _, h2 => by simp [listCharLe] at h2
  | a :: as, b :: bs, c :: cs, h1, h2 => by
    simp only [listCharLe] at h1 h2 ⊢
    split_ifs at h1 h2 ⊢ <;>
      first
        | rfl
        | (exact listCharLe_trans as bs cs h1 h2)
        | (exfalso; omega)

theorem listCharLe_antisymm :
    ∀ s t, listCharLe s t = true → listCharLe t s = true → s = t
  | [], [], _, _ => rfl
  | [], _ :: _, _, h2 => by simp [listCharLe] at h2
  | _ :: _, [], h1, _ => by simp [listCharLe] at h1
  | a :: as, b :: bs, h1, h2 => by
    simp only [listCharLe] at h1 h2
    by_cases hab : a.toNat < b.toNat
    · rw [if_neg (by omega), if_pos hab] at h2
      exact Bool.noConfusion h2
    · by_cases hba : b.toNat < a.toNat
      · rw [if_neg (by omega), if_pos hba] at h1
        exact Bool.noConfusion h1
      · rw [if_neg hab, if_neg hba] at h1
        rw [if_neg hba, if_neg hab] at h2
        have ht : a.toNat = b.toNat := by omega
        have hchar : a = b := Char.eq_of_val_eq (UInt32.ext ht)
        rw [hchar, listCharLe_antisymm as bs h1 h2]

def vrank : Value → Nat
  | .absent => 0
  | .noneV => 1
  | .boolean _ => 2
  | .num _ => 3
  | .inf _ => 4
  | .text _ => 5

def vstr : Value → List Char
  | .text s => s.toList
  | _ => []

def vpay : Value → ℚ
  | .num q => q
  | .boolean b => if b then 1 else 0
  | .inf b => if b then 1 else 0
  | _ => 0

def vleB (a b : Value) : Bool :=
  if vrank a < vrank b then true
  else if vrank b < vrank a then false
  else if vstr a = vstr b then decide (vpay a ≤ vpay b)
  else listCharLe (vstr a) (vstr b)

def vle (a b : Value) : Prop := vleB a b = true

instance : DecidableRel vle := fun a b => inferInstanceAs (Decidable (vleB a b = true))

theorem vleB_rank_le {a b : Value} (h : vleB a b = true) : vrank a ≤ vrank b := by
  unfold vleB at h
  by_cases h1 : vrank a < vrank b
  · omega
  · by_cases h2 : vrank b < vrank a
    · simp [h1, h2] at h
    · omega

instance : IsTotal Value vle := by
  constructor
  intro a b
  unfold vle vleB
  by_cases hr1 : vrank a < vrank b
  · left; simp [hr1]
  · by_cases hr2 : vrank b < vrank a
    · right; simp [hr2]
    · by_cases hs : vstr a = vstr b
      · rcases le_total (vpay a) (vpay b) with h | h
        · left; simp [hr1, hr2, hs, h]
        · right; simp [hr1, hr2, hs.symm, h]
      · rcases listCharLe_total (vstr a) (vstr b) with h | h
        · left; simp [hr1, hr2, hs, h]
        · right; simp [hr1, hr2, Ne.symm hs, h]

instance : IsTrans Value vle := by
  constructor
  intro a b c h1 h2
  have r1 := vleB_rank_le h1
  have r2 := vleB_rank_le h2
  unfold vle vleB at h1 h2 ⊢
  by_cases hac : vrank a < vrank c
  · simp [hac]
  · have eab : vrank a = vrank b := by omega
    have ebc : vrank b = vrank c := by omega
    rw [if_neg (by omega), if_neg (by omega)] at h1
    rw [if_neg (by omega), if_neg (by omega)] at h2
    rw [if_neg hac, if_neg (by omega)]
    by_cases hs1 : vstr a = vstr b <;> by_cases hs2 : vstr b = vstr c
    · rw [if_pos hs1] at h1
      rw [if_pos hs2] at h2
      rw [if_pos (hs1.trans hs2)]
      exact decide_eq_true (le_trans (of_decide_eq_true h1) (of_decide_eq_true h2))
    · rw [if_pos hs1] at h1
      rw [if_neg hs2] at h2
      rw [if_neg (hs1 ▸ hs2), hs1]
      exact h2
    · rw [if_neg hs1] at h1
      rw [if_pos hs2] at h2
      rw [if_neg (hs2 ▸ hs1), ← hs2]
      exact h1
    · rw [if_neg hs1] at h1
      rw [if_neg hs2] at h2
      by_cases hs3 : vstr a = vstr c
      · exact absurd (listCharLe_antisymm _ _ h1 (hs3 ▸ h2)) hs1
      · rw [if_neg hs3]
        exact listCharLe_trans _ _ _ h1 h2

/-- A dataframe row: an association list from column name to cell value;
a column absent from the list is a NaN cell. -/
abbrev Row := List (String × Value)

/-- A dataframe: its column list and its rows. -/
structure DF where
  cols : List String
  rows : List Row

/-- The cell of a row at a column (NaN when the row stores nothing). -/
def rowCell (r : Row) (f : String) : Value := (r.lookup f).getD .absent

/-- pandas Series.get with an explicit default: the cell when the frame
has the column (a missing entry is a NaN cell), else the default. -/
def seriesGetD (df : DF) (r : Row) (f : String) (d : Value) : Value :=
  if f ∈ df.cols then rowCell r f else d

/-- pandas Series.get without a default: None when the column is absent. -/
def seriesGet (df : DF) (r : Row) (f : String) : Value := seriesGetD df r f .noneV

/-- The file-link key column shared by both sources. -/
def keyCol : String := "קישור לקובץ"

/-- The column holding the always-true key-equality flag. -/
def flagCol : String :=
  "השוואה - \nקישור לקובץ\n(הערך החד ערכי\nהתוצאה חייבת\nלהיות TRUE)"

/-- Target column and source column of each copied complot field
(quality_check_gui.py lines 113-122, auto_fill_table.py lines 104-113). -/
def complotCopy : List (String × String) :=
  [("מהקומפלוט - \nקישור לקובץ", "קישור לקובץ"),
   ("מהקומפלוט - \nדיסק", "דיסק"),
   ("מהקומפלוט - \nמשלוח", "משלוח"),
   ("מהקומפלוט - \nארגז", "ארגז"),
   ("מהקומפלוט - \nתיק בניין", "תיק בניין"),
   ("מהקומפלוט - \nמספר בקשה", "מספר בקשה"),
   ("מהקומפלוט - \nגוש", "גוש"),
   ("מהקומפלוט - \nחלקה", "חלקה"),
   ("מהקומפלוט - \nמגרש", "מגרש"),
   ("מהקומפלוט - \nכתובת", "כתובת")]

/-- Target column and source column of each copied layer field
(quality_check_gui.py lines 128-132, auto_fill_table.py lines 118-122). -/
def layerCopy : List (String × String) :=
  [("מהשכבה - \nקישור לקובץ", "קישור לקובץ"),
   ("מהשכבה - \nגוש\nלפי בדיקה גאוגרפית", "גוש"),
   ("מהשכבה - \nחלקה\nלפי בדיקה גאוגרפית", "חלקה"),
   ("מהשכבה - \nמגרש\nלפי בדיקה גאוגרפית", "מגרש"),
   ("מהשכבה - \nכתובת\nלפי בדיקה גאוגרפית", "כתובת")]

/-- All values of one column (a NaN cell for rows that store nothing). -/
def DF.colValues (df : DF) (f : String) : List Value :=
  df.rows.map (fun r => rowCell r f)

/-- df[f].dropna().unique(): raises KeyError when the column is missing,
else the distinct non-null values.  (pandas unique keeps first-seen order,
List.dedup last-seen; only set membership is consumed downstream, the GUI
sorts and the script feeds a Python set.) -/
def DF.keyValues (df : DF) (f : String) : Except String (List Value) :=
  if f ∈ df.cols then .ok (((df.colValues f).filter (fun v => !isna v)).dedup)
  else .error ("KeyError: " ++ f)

/-- df[df[keyCol] == link]: raises KeyError when the key column is
missing, else the rows whose key cell equals the link. -/
def DF.filterKeyE (df : DF) (link : Value) : Except String (List Row) :=
  if keyCol ∈ df.cols then
    .ok (df.rows.filter (fun r => pyEq (rowCell r keyCol) link))
  else .error ("KeyError: " ++ keyCol)

namespace TableFiller

/-- quality_check_gui.py lines 153-161: the discrepancy notes built when a
key is present in both sources; the three identifier fields echo both
conflicting values, the address field contributes only its name. -/
def discrepancyList (complot layer : DF) (c l : Row) : List String :=
  let gush_match := compare_values (seriesGet complot c "גוש") (seriesGet layer l "גוש")
  let helka_match := compare_values (seriesGet complot c "חלקה") (seriesGet layer l "חלקה")
  let migrash_match := compare_values (seriesGet complot c "מגרש") (seriesGet layer l "מגרש")
  let address_match := compare_values (seriesGet complot c "כתובת") (seriesGet layer l "כתובת")
  (if gush_match then [] else
    ["גוש (" ++ pyStr (seriesGet complot c "גוש") ++ " ≠ " ++ pyStr (seriesGet layer l "גוש") ++ ")"]) ++
  (if helka_match then [] else
    ["חלקה (" ++ pyStr (seriesGet complot c "חלקה") ++ " ≠ " ++ pyStr (seriesGet layer l "חלקה") ++ ")"]) ++
  (if migrash_match then [] else
    ["מגרש (" ++ pyStr (seriesGet complot c "מגרש") ++ " ≠ " ++ pyStr (seriesGet layer l "מגרש") ++ ")"]) ++
  (if address_match then [] else ["כתובת"])

/-- quality_check_gui.py lines 163-167: the note cell for a key present in
both sources. -/
def matchNote (complot layer : DF) (c l : Row) : String :=
  if (discrepancyList complot layer c l).isEmpty then "התאמה מלאה"
  else "אי התאמה: " ++ String.intercalate ", " (discrepancyList complot layer c l)

/-- One iteration of the loop of quality_check_gui.py lines 106-174 for a
single link: the produced row, the perfect-match increment and the
partial-match increment.  By the time the loop runs both key columns
exist (the key-set accesses of lines 97-98 would have raised otherwise),
so the row filters are pure here. -/
def processLink (complot layer : DF) (link : Value) : Row × Nat × Nat :=
  let cm := complot.rows.filter (fun r => pyEq (rowCell r keyCol) link)
  let lm := layer.rows.filter (fun r => pyEq (rowCell r keyCol) link)
  let crow : Row := match cm with
    | c :: _ => complotCopy.map (fun p => (p.1, seriesGetD complot c p.2 (.text "")))
    | [] => []
  let lrow : Row := match lm with
    | l :: _ => layerCopy.map (fun p => (p.1, seriesGetD layer l p.2 (.text "")))
    | [] => []
  match cm, lm with
  | c :: _, l :: _ =>
    let flags : Row :=
      [(flagCol, .boolean true),
       ("השוואה - \nגוש", .boolean (compare_values (seriesGet complot c "גוש") (seriesGet layer l "גוש"))),
       ("השוואה - \nחלקה", .boolean (compare_values (seriesGet complot c "חלקה") (seriesGet layer l "חלקה"))),
       ("השוואה - \nמגרש", .boolean (compare_values (seriesGet complot c "מגרש") (seriesGet layer l "מגרש"))),
       ("השוואה - \nכתובת", .boolean (compare_values (seriesGet complot c "כתובת") (seriesGet layer l "כתובת")))]
    let row := crow ++ lrow ++ flags ++ [("הערות", .text (matchNote complot layer c l))]
    if (discrepancyList complot layer c l).isEmpty then (row, 1, 0) else (row, 0, 1)
  | _ :: _, [] => (crow ++ [("הערות", .text "נמצא בקומפלוט בלבד")], 0, 0)
  | [], _ :: _ => (lrow ++ [("הערות", .text "נמצא בשכבה בלבד")], 0, 0)
  | [], [] => ([], 0, 0)

/-- quality_check_gui.py lines 97-106: both key-column accesses (either
raises KeyError when its column is missing), then the sorted union of the
two non-null key sets. -/
def sortedLinks (complot layer : DF) : Except String (List Value) :=
  match complot.keyValues keyCol, layer.keyValues keyCol with
  | .ok ck, .ok lk => .ok (List.insertionSort vle ((ck ++ lk).dedup))
  | .error e, _ => .error e
  | _, .error e => .error e

/-- quality_check_gui.py lines 91-178: process_matches.  The loop state
(rows list, perfect and partial counters) is made explicit; the source
returns the two counters together with len(filled_df), which for a frame
built from a list of row dicts is the number of dicts. -/
def process_matches (complot layer : DF) :
    Except String (List Row × Nat × Nat × Nat) :=
  match sortedLinks complot layer with
  | .error e => .error e
  | .ok links =>
    let results := links.map (processLink complot layer)
    let rows := results.map (fun r => r.1)
    .ok (rows, (results.map (fun r => r.2.1)).sum,
         (results.map (fun r => r.2.2)).sum, rows.length)

end TableFiller

namespace autoFill

/-- auto_fill_table.py lines 158-166: the names of the disagreeing fields
(no values are echoed, the address is treated like the others). -/
def discrepancyNames (complot layer : DF) (c l : Row) : List String :=
  (if compare_values (seriesGet complot c "גוש") (seriesGet layer l "גוש") then [] else ["גוש"]) ++
  (if compare_values (seriesGet complot c "חלקה") (seriesGet layer l "חלקה") then [] else ["חלקה"]) ++
  (if compare_values (seriesGet complot c "מגרש") (seriesGet layer l "מגרש") then [] else ["מגרש"]) ++
  (if compare_values (seriesGet complot c "כתובת") (seriesGet layer l "כתובת") then [] else ["כתובת"])

/-- auto_fill_table.py lines 168-169: a note is written only when there
are discrepancies; a full match leaves the note cell untouched. -/
def matchNote (complot layer : DF) (c l : Row) : Option String :=
  if (discrepancyNames complot layer c l).isEmpty then none
  else some ("אי התאמה ב: " ++ String.intercalate ", " (discrepancyNames complot layer c l))

/-- auto_fill_table.py lines 75-79: the union of the two sources' non-null
key sets, each guarded by a column-presence check (a Python set; its
iteration order is unspecified, so the loop below takes the enumeration as
a parameter). -/
def linkSet (complot layer : DF) : List Value :=
  ((if keyCol ∈ complot.cols then (complot.colValues keyCol).filter (fun v => !isna v) else []) ++
   (if keyCol ∈ layer.cols then (layer.colValues keyCol).filter (fun v => !isna v) else [])).dedup

/-- Update one cell of a row (pandas loc column assignment: replace the
entry in place or append a new column). -/
def rowSet (r : Row) (f : String) (v : Value) : Row :=
  if r.lookup f = none then r ++ [(f, v)]
  else r.map (fun p => if p.1 = f then (p.1, v) else p)

/-- Several cell updates in order. -/
def rowSetMany (r : Row) (cells : List (String × Value)) : Row :=
  cells.foldl (fun acc p => rowSet acc p.1 p.2) r

/-- Update the row at an index. -/
def updateAt : List Row → Nat → (Row → Row) → List Row
  | [], _, _ => []
  | r :: rs, 0, f => f r :: rs
  | r :: rs, n + 1, f => r :: updateAt rs n f

/-- A row all of whose stored cells are null (an empty row counts: its
cells are all NaN in the widened frame). -/
def rowAllNa (r : Row) : Bool := r.all (fun p => isna p.2)

/-- auto_fill_table.py lines 85-171: the enumerate loop over the link set.
Each iteration filters both frames by the key column unguarded (lines
90-93), which raises KeyError when a key column is missing; then the
template row at the running index is widened with the copied fields, the
comparison flags and the discrepancy note.  For an enumeration of the
non-null link set the running index never exceeds the row count (one
empty row is appended whenever it would), matching the source's
concat-then-loc writes. -/
def go (complot layer : DF) : List Value → Nat → List Row → Except String (List Row)
  | [], _, rows => .ok rows
  | link :: rest, i, rows =>
    if isna link then go complot layer rest (i + 1) rows
    else match complot.filterKeyE link, layer.filterKeyE link with
      | .error e, _ => .error e
      | _, .error e => .error e
      | .ok cm, .ok lm =>
        if cm.isEmpty && lm.isEmpty then go complot layer rest (i + 1) rows
        else
          let rows1 := if rows.length ≤ i then rows ++ [([] : Row)] else rows
          let rows2 := match cm with
            | c :: _ => updateAt rows1 i (fun r =>
                rowSetMany r (complotCopy.map (fun p => (p.1, seriesGetD complot c p.2 (.text "")))))
            | [] => rows1
          let rows3 := match lm with
            | l :: _ => updateAt rows2 i (fun r =>
                rowSetMany r (layerCopy.map (fun p => (p.1, seriesGetD layer l p.2 (.text "")))))
            | [] => rows2
          let rows4 := match cm, lm with
            | c :: _, l :: _ =>
              updateAt rows3 i (fun r =>
                let r1 := rowSetMany r
                  [(flagCol, .boolean true),
                   ("השוואה - \nגוש", .boolean (compare_values (seriesGet complot c "גוש") (seriesGet layer l "גוש"))),
                   ("השוואה - \nחלקה", .boolean (compare_values (seriesGet complot c "חלקה") (seriesGet layer l "חלקה"))),
                   ("השוואה - \nמגרש", .boolean (compare_values (seriesGet complot c "מגרש") (seriesGet layer l "מגרש"))),
                   ("השוואה - \nכתובת", .boolean (compare_values (seriesGet complot c "כתובת") (seriesGet layer l "כתובת")))]
                match matchNote complot layer c l with
                | some note => rowSet r1 "הערות" (.text note)
                | none => r1)
            | _, _ => rows3
          go complot layer rest (i + 1) rows4

/-- auto_fill_table.py lines 70-174: start from a copy of the
recommendations template, run the fill loop over the given enumeration of
the link set, then drop the rows that are null in every column
(dropna(how='all')). -/
def fillLoop (complot layer : DF) (template : List Row) (order : List Value) :
    Except String (List Row) :=
  match go complot layer order 0 template with
  | .error e => .error e
  | .ok rows => .ok (rows.filter (fun r => !rowAllNa r))

end autoFill

/-- Modelled from the spec and claim C3 verbatim: the note is a function
of the four attribute comparisons; all true gives the fixed full-match
text, otherwise the disagreeing fields are listed in order, the block,
parcel and plot fields echoing both conflicting values and the address
field contributing only its name. -/
def specNoteC3 (complot layer : DF) (c l : Row) : String :=
  let bm := TableFiller.compare_values (seriesGet complot c "גוש") (seriesGet layer l "גוש")
  let pm := TableFiller.compare_values (seriesGet complot c "חלקה") (seriesGet layer l "חלקה")
  let plm := TableFiller.compare_values (seriesGet complot c "מגרש") (seriesGet layer l "מגרש")
  let am := TableFiller.compare_values (seriesGet complot c "כתובת") (seriesGet layer l "כתובת")
  if bm && pm && plm && am then "התאמה מלאה"
  else "אי התאמה: " ++ String.intercalate ", "
    ((if bm then [] else
       ["גוש (" ++ pyStr (seriesGet complot c "גוש") ++ " ≠ " ++ pyStr (seriesGet layer l "גוש") ++ ")"]) ++
     (if pm then [] else
       ["חלקה (" ++ pyStr (seriesGet complot c "חלקה") ++ " ≠ " ++ pyStr (seriesGet layer l "חלקה") ++ ")"]) ++
     (if plm then [] else
       ["מגרש (" ++ pyStr (seriesGet complot c "מגרש") ++ " ≠ " ++ pyStr (seriesGet layer l "מגרש") ++ ")"]) ++
     (if am then [] else ["כתובת"]))

/-- Helper: a successful df[f].dropna().unique() means the column exists
and the result is the deduplicated non-null column. -/
theorem keyValues_ok {df : DF} {f : String} {l : List Value}
    (h : df.keyValues f = .ok l) :
    f ∈ df.cols ∧ l = ((df.colValues f).filter (fun v => !isna v)).dedup := by
  unfold DF.keyValues at h
  by_cases hc : f ∈ df.cols
  · rw [if_pos hc] at h
    exact ⟨hc, (Except.ok.inj h).symm⟩
  · rw [if_neg hc] at h
    exact absurd h (by simp)

/- Concrete frames used by the witnesses and counterexamples. -/

/-- A one-record primary frame with key "a". -/
def cW : DF := ⟨[keyCol], [[(keyCol, Value.text "a")]]⟩

/-- An empty secondary frame that still has the key column. -/
def lW : DF := ⟨[keyCol], []⟩

/-- The merged row the GUI engine produces for cW and lW. -/
def c4wRow : Row :=
  [("מהקומפלוט - \nקישור לקובץ", Value.text "a"),
   ("מהקומפלוט - \nדיסק", Value.text ""),
   ("מהקומפלוט - \nמשלוח", Value.text ""),
   ("מהקומפלוט - \nארגז", Value.text ""),
   ("מהקומפלוט - \nתיק בניין", Value.text ""),
   ("מהקומפלוט - \nמספר בקשה", Value.text ""),
   ("מהקומפלוט - \nגוש", Value.text ""),
   ("מהקומפלוט - \nחלקה", Value.text ""),
   ("מהקומפלוט - \nמגרש", Value.text ""),
   ("מהקומפלוט - \nכתובת", Value.text ""),
   ("הערות", Value.text "נמצא בקומפלוט בלבד")]

/-- A primary frame with keys "b" and "a" in that order. -/
def c5c : DF := ⟨[keyCol], [[(keyCol, Value.text "b")], [(keyCol, Value.text "a")]]⟩

/-- A two-row recommendations template with non-empty cells. -/
def c4st : List Row := [[("A", Value.text "x")], [("B", Value.text "y")]]

/-- A primary frame without the key column. -/
def c6complot : DF := ⟨["גוש"], []⟩

/-- A secondary frame with the key column and one key "a". -/
def c6layer : DF := ⟨[keyCol], [[(keyCol, Value.text "a")]]⟩

/-- Frames whose block values disagree ("x" against "y"), all other
compared fields being absent on both sides. -/
def c3c : DF := ⟨[keyCol, "גוש"], [[(keyCol, Value.text "a"), ("גוש", Value.text "x")]]⟩

/-- The matching secondary frame with block "y". -/
def c3l : DF := ⟨[keyCol, "גוש"], [[(keyCol, Value.text "a"), ("גוש", Value.text "y")]]⟩

/-- The primary record of c3c. -/
def c3crow : Row := [(keyCol, Value.text "a"), ("גוש", Value.text "x")]

/-- The secondary record of c3l. -/
def c3lrow : Row := [(keyCol, Value.text "a"), ("גוש", Value.text "y")]

/-- C3 (amended): the GUI engine builds the note exactly as the claim
states it; the auto_fill_table variant instead writes no note at all when
the four comparisons all succeed, and otherwise writes "אי התאמה ב: "
followed only by the names of the disagreeing fields, echoing no values
for any field. -/
theorem c3_note_amended :
    (∀ (complot layer : DF) (c l : Row),
      TableFiller.matchNote complot layer c l = specNoteC3 complot layer c l) ∧
    ∀ (complot layer : DF) (c l : Row),
      autoFill.matchNote complot layer c l =
        (if autoFill.compare_values (seriesGet complot c "גוש") (seriesGet layer l "גוש") &&
            autoFill.compare_values (seriesGet complot c "חלקה") (seriesGet layer l "חלקה") &&
            autoFill.compare_values (seriesGet complot c "מגרש") (seriesGet layer l "מגרש") &&
            autoFill.compare_values (seriesGet complot c "כתובת") (seriesGet layer l "כתובת") then
          none
        else
          some ("אי התאמה ב: " ++
            String.intercalate ", " (autoFill.discrepancyNames complot layer c l))) := by
  constructor
  · intro complot layer c l
    simp only [TableFiller.matchNote, specNoteC3, TableFiller.discrepancyList]
    cases h1 : TableFiller.compare_values (seriesGet complot c "גוש") (seriesGet layer l "גוש") <;>
      cases h2 : TableFiller.compare_values (seriesGet complot c "חלקה") (seriesGet layer l "חלקה") <;>
        cases h3 : TableFiller.compare_values (seriesGet complot c "מגרש") (seriesGet layer l "מגרש") <;>
          cases h4 : TableFiller.compare_values (seriesGet complot c "כתובת") (seriesGet layer l "כתובת") <;>
            simp [h1, h2, h3, h4]
  · intro complot layer c l
    simp only [autoFill.matchNote, autoFill.discrepancyNames]
    cases h1 : autoFill.compare_values (seriesGet complot c "גוש") (seriesGet layer l "גוש") <;>
      cases h2 : autoFill.compare_values (seriesGet complot c "חלקה") (seriesGet layer l "חלקה") <;>
        cases h3 : autoFill.compare_values (seriesGet complot c "מגרש") (seriesGet layer l "מגרש") <;>
          cases h4 : autoFill.compare_values (seriesGet complot c "כתובת") (seriesGet layer l "כתובת") <;>
            simp [h1, h2, h3, h4]

/-- C3 (counterexample): the claim as stated fails on the cited
auto_fill_table.py code: with conflicting block values "x" and "y" the
claim requires a note echoing both values, but the script's note names
the field only; and on a full match the script writes no note where the
claim requires the fixed full-match text. -/
theorem c3_note_counterexample :
    autoFill.matchNote c3c c3l c3crow c3lrow = some "אי התאמה ב: גוש" ∧
    specNoteC3 c3c c3l c3crow c3lrow = "אי התאמה: גוש (x ≠ y)" ∧
    autoFill.matchNote c3c c3l c3crow c3lrow ≠
      some (specNoteC3 c3c c3l c3crow c3lrow) ∧
    autoFill.matchNote c3c c3l c3crow c3crow = none := by
  refine ⟨by decide, by decide, by decide, by decide⟩

/-- C4 (amended, the GUI engine half): on success, process_matches emits
exactly one merged row per key in the union of the two deduplicated
non-null key sets, the returned total equals that row count, the key
union has no duplicates, and a value lies in it exactly when it is a
non-null cell of either source's key column. -/
theorem c4_union_amended (complot layer : DF) (ck lk : List Value)
    (rows : List Row) (pc mc n : Nat)
    (hck : complot.keyValues keyCol = .ok ck)
    (hlk : layer.keyValues keyCol = .ok lk)
    (hp : TableFiller.process_matches complot layer = .ok (rows, pc, mc, n)) :
    rows.length = ((ck ++ lk).dedup).length ∧ n = rows.length ∧
    ((ck ++ lk).dedup).Nodup ∧
    ∀ v, v ∈ (ck ++ lk).dedup ↔
      (isna v = false ∧
        (v ∈ complot.colValues keyCol ∨ v ∈ layer.colValues keyCol)) := by
  have hsl : TableFiller.sortedLinks complot layer =
      .ok (List.insertionSort vle ((ck ++ lk).dedup)) := by
    unfold TableFiller.sortedLinks
    rw [hck, hlk]
  unfold TableFiller.process_matches at hp
  rw [hsl] at hp
  simp only [Except.ok.injEq, Prod.mk.injEq] at hp
  obtain ⟨h1, _, _, h4⟩ := hp
  obtain ⟨_, hckdef⟩ := keyValues_ok hck
  obtain ⟨_, hlkdef⟩ := keyValues_ok hlk
  refine ⟨?_, ?_, List.nodup_dedup _, ?_⟩
  · rw [← h1]
    simp [List.length_insertionSort]
  · rw [← h4, ← h1]
  · intro v
    subst hckdef
    subst hlkdef
    simp only [List.mem_dedup, List.mem_append, List.mem_filter,
      Bool.not_eq_true']
    tauto

/-- C4 (witness): the amended GUI invariant instantiated on a concrete
one-key primary source and an empty secondary source. -/
theorem c4_union_witness :
    (cW.keyValues keyCol = .ok [Value.text "a"]) ∧
    (lW.keyValues keyCol = .ok []) ∧
    (TableFiller.process_matches cW lW = .ok ([c4wRow], 0, 0, 1)) ∧
    ([c4wRow].length = (([Value.text "a"] ++ ([] : List Value)).dedup).length ∧
     1 = [c4wRow].length ∧
     (([Value.text "a"] ++ ([] : List Value)).dedup).Nodup ∧
     ∀ v, v ∈ ([Value.text "a"] ++ ([] : List Value)).dedup ↔
       (isna v = false ∧
         (v ∈ cW.colValues keyCol ∨ v ∈ lW.colValues keyCol))) :=
  ⟨by decide, by decide, by decide,
   c4_union_amended cW lW [Value.text "a"] [] [c4wRow] 0 0 1
     (by decide) (by decide) (by decide)⟩

/-- C4 (counterexample): the claim as stated fails on the cited
auto_fill_table.py reconciliation: it fills a copy of the recommendations
template, so with a two-row template and a single reconciliation key the
output has two rows, not one. -/
theorem c4_union_counterexample :
    autoFill.linkSet cW lW = [Value.text "a"] ∧
    (autoFill.fillLoop cW lW c4st [Value.text "a"]).map List.length = .ok 2 ∧
    (2 : Nat) ≠ 1 := by
  refine ⟨by decide, by decide, by decide⟩

/-- C5 (amended, the GUI engine half): the link sequence the GUI engine
iterates is sorted, and the emitted rows are exactly the per-link rows in
that order, so the output is in ascending key order and deterministic. -/
theorem c5_order_amended (complot layer : DF) (links : List Value)
    (rows : List Row) (pc mc n : Nat)
    (hl : TableFiller.sortedLinks complot layer = .ok links)
    (hp : TableFiller.process_matches complot layer = .ok (rows, pc, mc, n)) :
    List.Sorted vle links ∧
    rows = links.map (fun k => (TableFiller.processLink complot layer k).1) := by
  constructor
  · unfold TableFiller.sortedLinks at hl
    cases hck : complot.keyValues keyCol with
    | error e => rw [hck] at hl; simp at hl
    | ok ck =>
      cases hlk : layer.keyValues keyCol with
      | error e => rw [hck, hlk] at hl; simp at hl
      | ok lk =>
        rw [hck, hlk] at hl
        rw [← Except.ok.inj hl]
        exact List.sorted_insertionSort vle _
  · unfold TableFiller.process_matches at hp
    rw [hl] at hp
    simp only [Except.ok.injEq, Prod.mk.injEq] at hp
    rw [← hp.1, List.map_map]
    rfl

/-- C5 (witness): the amended ordering statement instantiated on the
concrete one-key frames. -/
theorem c5_order_witness :
    (TableFiller.sortedLinks cW lW = .ok [Value.text "a"]) ∧
    (TableFiller.process_matches cW lW = .ok ([c4wRow], 0, 0, 1)) ∧
    (List.Sorted vle [Value.text "a"] ∧
     [c4wRow] = [Value.text "a"].map (fun k => (TableFiller.processLink cW lW k).1)) :=
  ⟨by decide, by decide,
   c5_order_amended cW lW [Value.text "a"] [c4wRow] 0 0 1 (by decide) (by decide)⟩

/-- C5 (counterexample): the claim as stated fails on the cited
auto_fill_table.py loop: it iterates the Python set in whatever order the
set yields.  The list ["b", "a"] is a valid enumeration of the link set
(same elements, no duplicates), and under it the rows come out with keys
"b" then "a", which is not ascending. -/
theorem c5_order_counterexample :
    [Value.text "b", Value.text "a"] = autoFill.linkSet c5c lW ∧
    (autoFill.linkSet c5c lW).Nodup ∧
    (autoFill.fillLoop c5c lW [] [Value.text "b", Value.text "a"]).map
      (fun rows => rows.map (fun r => rowCell r "מהקומפלוט - \nקישור לקובץ")) =
      .ok [Value.text "b", Value.text "a"] ∧
    ¬ List.Sorted vle [Value.text "b", Value.text "a"] := by
  refine ⟨by decide, by decide, by decide, by decide⟩

/-- C6 (amended): a missing key column makes the run fail rather than
degrade: the GUI engine raises while collecting the key sets (whichever
source lacks the column), and the auto_fill_table script - whose guard
covers only the key-set collection - raises at the first per-key lookup
as soon as any non-null key exists. -/
theorem c6_missing_key_amended :
    (∀ complot layer : DF, keyCol ∉ complot.cols ∨ keyCol ∉ layer.cols →
      ∃ e, TableFiller.process_matches complot layer = .error e) ∧
    ∀ (complot layer : DF) (template : List Row) (link : Value) (rest : List Value),
      keyCol ∉ complot.cols → isna link = false →
      ∃ e, autoFill.fillLoop complot layer template (link :: rest) = .error e := by
  constructor
  · intro complot layer h
    unfold TableFiller.process_matches TableFiller.sortedLinks
    rcases h with h | h
    · have hc : complot.keyValues keyCol = .error ("KeyError: " ++ keyCol) := by
        unfold DF.keyValues
        rw [if_neg h]
      rw [hc]
      cases layer.keyValues keyCol with
      | error e => exact ⟨_, rfl⟩
      | ok lk => exact ⟨_, rfl⟩
    · have hl : layer.keyValues keyCol = .error ("KeyError: " ++ keyCol) := by
        unfold DF.keyValues
        rw [if_neg h]
      rw [hl]
      cases complot.keyValues keyCol with
      | error e => exact ⟨_, rfl⟩
      | ok ck => exact ⟨_, rfl⟩
  · intro complot layer template link rest hc hna
    refine ⟨"KeyError: " ++ keyCol, ?_⟩
    have hst : complot.filterKeyE link = .error ("KeyError: " ++ keyCol) := by
      unfold DF.filterKeyE
      rw [if_neg hc]
    unfold autoFill.fillLoop
    simp [autoFill.go, hna, hst]

/-- C6 (witness): the amended failure statement instantiated on a
concrete keyless primary frame and a one-key secondary frame. -/
theorem c6_missing_key_witness :
    (keyCol ∉ c6complot.cols) ∧
    (∃ e, TableFiller.process_matches c6complot c6layer = .error e) ∧
    (isna (Value.text "a") = false) ∧
    (∃ e, autoFill.fillLoop c6complot c6layer [] [Value.text "a"] = .error e) :=
  ⟨by decide,
   c6_missing_key_amended.1 c6complot c6layer (Or.inl (by decide)),
   by decide,
   c6_missing_key_amended.2 c6complot c6layer [] (Value.text "a") [] (by decide) (by decide)⟩

/-- C6 (counterexample): the claim as stated is false: with the key
column missing from the primary source and one key in the secondary
source, both cited engines raise a key lookup error instead of producing
the other source's classifications. -/
theorem c6_missing_key_counterexample :
    TableFiller.process_matches c6complot c6layer = .error ("KeyError: " ++ keyCol) ∧
    autoFill.fillLoop c6complot c6layer [] [Value.text "a"] =
      .error ("KeyError: " ++ keyCol) := by
  refine ⟨by decide, by decide⟩

/-- The 50-character separator line of the report ("=" * 50). -/
def eqBanner : String := String.mk (List.replicate 50 '=')

/-- Python str.replace: replace every occurrence. -/
def replaceAll (s pat sub : String) : String :=
  String.intercalate sub (s.splitOn pat)

/-- The two file writes save_results performs, in order. -/
inductive WriteOp where
  | table
  | report
  deriving DecidableEq, Repr

namespace TableFiller

/-- quality_check_gui.py line 186: the report file path derived from the
table output path. -/
def report_path (output_path : String) : String :=
  replaceAll output_path ".xlsx" "_report.txt"

/-- quality_check_gui.py lines 187-195: the successive f.write arguments
of the report, as a function of the generation timestamp and the four
paths.  The run's counters are not written anywhere in this report. -/
def reportWrites (generated complot_path layer_path rec_path output_path : String) :
    List String :=
  ["Automatic Table Filling Report\n",
   eqBanner ++ "\n",
   "Generated: " ++ generated ++ "\n",
   eqBanner ++ "\n\n",
   "Complot file: " ++ complot_path ++ "\n",
   "Layer file: " ++ layer_path ++ "\n",
   "Recommendations file: " ++ rec_path ++ "\n",
   "Output file: " ++ output_path ++ "\n"]

/-- quality_check_gui.py lines 180-197: save_results writes the merged
table first (to_excel) and the report second; an exception from either
write propagates and aborts the rest.  The two Bools model whether each
physical write succeeds; the returned list records the writes that
completed, and the result carries the two paths the source returns. -/
def save_results (tableOk reportOk : Bool) (output_path : String) :
    List WriteOp × Except String (String × String) :=
  if tableOk then
    if reportOk then
      ([WriteOp.table, WriteOp.report], .ok (output_path, report_path output_path))
    else ([WriteOp.table], .error "report write failed")
  else ([], .error "table write failed")

end TableFiller

namespace enhanced

/-- auto_fill_enhanced.py lines 76-79, 125-129 and 216-219: the report
lines accumulated by load_data and process_matches, as a function of the
three record counts, the four link statistics and the three match
counters.  The counts appear here; no file path does. -/
def reportLines (nc nl nr na nco nlo nb pm mm tt : Nat) : List String :=
  ["Data Loading Summary:",
   "- Complot records: " ++ toString nc,
   "- Layer records: " ++ toString nl,
   "- Recommendations template rows: " ++ toString nr,
   "\nFile Link Analysis:",
   "- Total unique links: " ++ toString na,
   "- Complot only: " ++ toString nco,
   "- Layer only: " ++ toString nlo,
   "- In both sources: " ++ toString nb,
   "\nMatch Results:",
   "- Perfect matches: " ++ toString pm,
   "- Partial matches: " ++ toString mm,
   "- Total rows: " ++ toString tt]

/-- auto_fill_enhanced.py lines 231-236: the report write arguments: the
same banner block as the GUI, then the accumulated lines joined with
newlines.  No source path or output path is written. -/
def reportWrites (generated : String) (nc nl nr na nco nlo nb pm mm tt : Nat) :
    List String :=
  ["Automatic Table Filling Report\n",
   eqBanner ++ "\n",
   "Generated: " ++ generated ++ "\n",
   eqBanner ++ "\n\n",
   String.intercalate "\n" (reportLines nc nl nr na nco nlo nb pm mm tt)]

end enhanced

/-- Modelled from claim C7: the fixed header banner, generation timestamp
line included. -/
def specBannerC7 (generated : String) : List String :=
  ["Automatic Table Filling Report\n",
   eqBanner ++ "\n",
   "Generated: " ++ generated ++ "\n",
   eqBanner ++ "\n\n"]

/-- Modelled from claim C7: the metadata block of source paths and output
path. -/
def specMetaC7 (complot_path layer_path rec_path output_path : String) : List String :=
  ["Complot file: " ++ complot_path ++ "\n",
   "Layer file: " ++ layer_path ++ "\n",
   "Recommendations file: " ++ rec_path ++ "\n",
   "Output file: " ++ output_path ++ "\n"]

/-- Modelled from claim C7: the run's aggregate counts (matches and
totals) as ordered text lines. -/
def specCountsC7 (pm mm tt : Nat) : List String :=
  ["Perfect matches: " ++ toString pm ++ "\n",
   "Partial matches: " ++ toString mm ++ "\n",
   "Total rows: " ++ toString tt ++ "\n"]

/-- Modelled from claim C7 verbatim: banner, then metadata, then counts. -/
def specReportC7 (generated complot_path layer_path rec_path output_path : String)
    (pm mm tt : Nat) : List String :=
  specBannerC7 generated ++ specMetaC7 complot_path layer_path rec_path output_path ++
    specCountsC7 pm mm tt

/-- C7 (amended): the GUI report is exactly the banner block followed by
the path metadata block, with no counts (it is not even a function of the
counts); the enhanced variant's report is the banner block followed by
the accumulated summary lines, which do carry the three counters but no
path metadata. -/
theorem c7_report_amended :
    (∀ g cp lp rp op, TableFiller.reportWrites g cp lp rp op =
      specBannerC7 g ++ specMetaC7 cp lp rp op) ∧
    (∀ g nc nl nr na nco nlo nb pm mm tt,
      enhanced.reportWrites g nc nl nr na nco nlo nb pm mm tt =
        specBannerC7 g ++
          [String.intercalate "\n" (enhanced.reportLines nc nl nr na nco nlo nb pm mm tt)]) ∧
    ∀ nc nl nr na nco nlo nb pm mm tt,
      ("- Perfect matches: " ++ toString pm) ∈ enhanced.reportLines nc nl nr na nco nlo nb pm mm tt ∧
      ("- Partial matches: " ++ toString mm) ∈ enhanced.reportLines nc nl nr na nco nlo nb pm mm tt ∧
      ("- Total rows: " ++ toString tt) ∈ enhanced.reportLines nc nl nr na nco nlo nb pm mm tt := by
  refine ⟨fun g cp lp rp op => rfl, fun g nc nl nr na nco nlo nb pm mm tt => rfl, ?_⟩
  intro nc nl nr na nco nlo nb pm mm tt
  refine ⟨?_, ?_, ?_⟩ <;> simp [enhanced.reportLines]

/-- C7 (counterexample): the claim as stated is false for both cited
report writers: the GUI report differs from the claimed
banner-metadata-counts sequence (its text contains no digit at all when
the timestamp and paths are digit-free, so no count can appear in it),
and the enhanced report carries no path metadata line. -/
theorem c7_report_counterexample :
    TableFiller.reportWrites "t" "c" "l" "r" "o" ≠ specReportC7 "t" "c" "l" "r" "o" 7 8 9 ∧
    ((String.join (TableFiller.reportWrites "t" "c" "l" "r" "o")).toList.all
      (fun ch => !ch.isDigit)) = true ∧
    enhanced.reportWrites "t" 1 2 3 4 5 6 7 8 9 10 ≠
      specReportC7 "t" "c" "l" "r" "o" 8 9 10 ∧
    ("Complot file: c\n" ∉ enhanced.reportWrites "t" 1 2 3 4 5 6 7 8 9 10) := by
  refine ⟨by decide, by decide, by decide, by decide⟩

/-- C8: save_results is fail-fast and ordered: when the table write
fails, nothing is written (in particular no report); whenever anything
was written, the table write came first; and on full success exactly the
table and then the report are written and both output paths are
returned. -/
theorem c8_save_results_fail_fast :
    (∀ r p, (TableFiller.save_results false r p).1 = []) ∧
    (∀ t r p, (TableFiller.save_results t r p).1.head? = some WriteOp.table ∨
      (TableFiller.save_results t r p).1 = []) ∧
    ∀ p, TableFiller.save_results true true p =
      ([WriteOp.table, WriteOp.report], .ok (p, TableFiller.report_path p)) := by
  refine ⟨fun r p => rfl, ?_, fun p => rfl⟩
  intro t r p
  cases t
  · right; rfl
  · cases r
    · left; rfl
    · left; rfl
